import Mathlib

/-!
Verification development for the Python client generator
(`stone/target/python_client.py`).

The generator is embedded shallowly: the schema model (namespaces, routes,
data types, fields, default values) becomes plain Lean data; the emission
utility (line emission, indentation scopes, wrapped paragraphs, delimited
multi-line lists) becomes a list of structured emission events, each
carrying its indentation depth; fatal failures (assert statements, raised
AssertionError and RuntimeError, attribute access on unsuitable objects)
become the error side of an `Except`, sequenced with an
exception-propagating bind.

External formatting helpers (`fmt_class`, `fmt_func`, `fmt_var`, `fmt_obj`,
`fmt_type`, `class_name_for_data_type`) live in modules that are not part
of this source file; they are consumed through a record of opaque string
formatters, so every theorem holds for an arbitrary choice of them.
-/

namespace Stone

/-- One piece of schema-level doc markup: plain text, or an inline
cross-reference tag with its payload (the source scans these with
`doc_sub_tag_re`). -/
inductive DocPart where
  | text (s : String)
  | tag (tagName : String) (val : String)
deriving DecidableEq

/-- A doc string, as the interleaving of plain text and inline tags.
`none` at use sites stands for an absent (or empty, hence falsy) doc. -/
abbrev Doc := List DocPart

/-- A schema-level default value.  `tagRef` is a TaggedValue referencing a
variant of a union data type (carrying the union type's name and the tag
name); `obj` is any other primitive value, carried abstractly by the string
the external `fmt_obj` helper would be given. -/
inductive PyValue where
  | tagRef (union_name : String) (tag_name : String)
  | obj (payload : String)
deriving DecidableEq

/-- The facts the generator observes about a field's data type: the
classification predicates it queries and the namespace name and type name
used by formatting. -/
structure FieldType where
  is_nullable : Bool
  is_user_defined : Bool
  is_void : Bool
  namespace_name : String
  type_name : String
deriving DecidableEq

/-- A struct or union field: name, data type facts, optional doc,
has-default flag and (meaningful only when `has_default`) default value. -/
structure Field where
  name : String
  data_type : FieldType
  doc : Option Doc
  has_default : Bool
  default : PyValue
deriving DecidableEq

/-- A route-level data type, the closed variant the generator dispatches
on: Void, Struct (with its namespace name, type name, own fields and
`all_fields`), Union (name, doc, fields), or any other shape (carrying
only its `is_user_defined` classification, which result/error formatting
queries). -/
inductive ArgDT where
  | void
  | struct (namespace_name : String) (name : String)
      (fields : List Field) (all_fields : List Field)
  | union (name : String) (doc : Option Doc) (fields : List Field)
  | other (user_defined : Bool)
deriving DecidableEq

/-- A fatal generation failure, carrying what the raised Python exception
reports. -/
inductive GenError where
  | assertFailed (msg : String)
  | unhandledDeclType (dt : ArgDT)
  | unhandledHelperType (dt : ArgDT)
  | unknownDocTag (tagName : String)
  | attributeError
  | valueError
deriving DecidableEq

/-- Exception propagation: run the continuation on a success, keep the
raised error otherwise (the shape of every sequenced Python statement that
may raise). -/
def epBind (x : Except GenError α) (f : α → Except GenError β) :
    Except GenError β :=
  match x with
  | .error e => .error e
  | .ok a => f a

/-- `is_void_type`. -/
def ArgDT.is_void : ArgDT → Bool
  | .void => true
  | _ => false

/-- `is_struct_type`. -/
def ArgDT.is_struct : ArgDT → Bool
  | .struct _ _ _ _ => true
  | _ => false

/-- `is_union_type`. -/
def ArgDT.is_union : ArgDT → Bool
  | .union _ _ _ => true
  | _ => false

/-- `is_user_defined_type`. -/
def ArgDT.is_user_defined : ArgDT → Bool
  | .struct _ _ _ _ => true
  | .union _ _ _ => true
  | .other b => b
  | .void => false

/-- The `.fields` attribute access: defined for structs and unions, an
AttributeError on anything else. -/
def ArgDT.fieldsA : ArgDT → Except GenError (List Field)
  | .struct _ _ fs _ => .ok fs
  | .union _ _ fs => .ok fs
  | _ => .error .attributeError

/-- A route's deprecation marker; `by_name` is the name of the replacement
route, when one is named (`route.deprecated.by.name`). -/
structure DeprecationInfo where
  by_name : Option String
deriving DecidableEq

/-- A route: name, argument/result/error data types, the `style`
attribute (`route.attrs.get` of the style key), optional doc, optional
deprecation marker. -/
structure Route where
  name : String
  arg_data_type : ArgDT
  result_data_type : ArgDT
  error_data_type : ArgDT
  style : Option String
  doc : Option Doc
  deprecated : Option DeprecationInfo
deriving DecidableEq

/-- A namespace: its name, the names of its data types (only their
presence matters to the generator), and its routes. -/
structure Namespace where
  name : String
  data_types : List String
  routes : List Route
deriving DecidableEq

/-- The external formatting helpers (from `python_helpers` and
`python_types`, outside this source file), consumed as opaque functions. -/
structure Fmt where
  fmt_class : String → String
  fmt_func : String → String
  fmt_var : String → String
  fmt_obj : PyValue → String
  fmt_type_f : FieldType → String
  fmt_type_dt : ArgDT → String
  class_name_for_data_type : String → String

/-- One emission event, carrying its indentation depth: a plain emitted
line, a raw block, a wrapped paragraph (with its subsequent-line prefix),
or a delimited multi-line list (items, before/after text, open/close
delimiters, compact flag). -/
inductive Event where
  | line (depth : Nat) (s : String)
  | raw (depth : Nat) (s : String)
  | wrapped (depth : Nat) (s : String) (subsequent : String)
  | mlist (depth : Nat) (items : List String) (before : String)
      (after : String) (dOpen : String) (dClose : String) (compact : Bool)
deriving DecidableEq

/-- Entering one indentation scope bumps an event's depth. -/
def bump : Event → Event
  | .line d s => .line (d + 1) s
  | .raw d s => .raw (d + 1) s
  | .wrapped d s p => .wrapped (d + 1) s p
  | .mlist d items b a o c k => .mlist (d + 1) items b a o c k

/-- `with self.indent():` around a block of emissions. -/
def ind (es : List Event) : List Event := es.map bump

/-- Effectful map over a list, stopping at the first failure (the shape of
a Python for loop whose body may raise). -/
def mapE (g : α → Except GenError β) : List α → Except GenError (List β)
  | [] => .ok []
  | a :: as =>
    epBind (g a) fun b =>
    epBind (mapE g as) fun bs => .ok (b :: bs)

/-- Effectful concat-map over a list, stopping at the first failure. -/
def mapEFlat (g : α → Except GenError (List β)) :
    List α → Except GenError (List β)
  | [] => .ok []
  | a :: as =>
    epBind (g a) fun bs =>
    epBind (mapEFlat g as) fun cs => .ok (bs ++ cs)

/-- Python truthiness of an optional string: `None` and the empty string
are falsy. -/
def strTruthy : Option String → Bool
  | none => false
  | some s => !s.isEmpty

/-- Splitting a character list at every occurrence of a separator
character. -/
def splitOnChar (c : Char) : List Char → List (List Char)
  | [] => [[]]
  | x :: xs =>
    if x = c then [] :: splitOnChar c xs
    else
      match splitOnChar c xs with
      | [] => [[x]]
      | h :: t => (x :: h) :: t

/-- `val.rsplit` at the last single-space separator, with one split:
`none` when there is no separator (the tuple unpacking would raise). -/
def rsplitLast (s : String) : Option (String × String) :=
  match (splitOnChar (Char.ofNat 32) s.data).reverse with
  | [] => none
  | [_] => none
  | last :: rest =>
    some (String.mk (List.intercalate [Char.ofNat 32] rest.reverse),
      String.mk last)

/-- An ASCII apostrophe, as a string. -/
def apos : String := String.singleton (Char.ofNat 39)

/-- The fixed header block emitted at the top of the generated module. -/
def base : String :=
  "# Auto-generated by Stone, do not modify.\n\nfrom abc import ABCMeta, abstractmethod\n"

/-- The fixed footer paragraph attached to the plain variant of
download-style routes. -/
def DOCSTRING_CLOSE_RESPONSE : String :=
  "If you do not consume the entire response body, then you must call close on the\nresponse object, otherwise you will max out your available connections. We\nrecommend using the `contextlib.closing\n<https://docs.python.org/2/library/contextlib.html#contextlib.closing>`_\ncontext manager to ensure this."

/-- A triple-quote docstring delimiter line. -/
def q3 : String := "\"\"\""

/-- `_docf`: translates one inline doc tag to its Sphinx-friendly
rendering; an unknown tag raises. -/
def _docf (fmt : Fmt) (tagName val : String) : Except GenError String :=
  if tagName = "type" then
    .ok (":class:`" ++ val ++ "`")
  else if tagName = "route" then
    .ok (":meth:`" ++ fmt.fmt_func val ++ "`")
  else if tagName = "link" then
    match rsplitLast val with
    | none => .error .valueError
    | some (anchor, url) => .ok ("`" ++ anchor ++ " <" ++ url ++ ">`_")
  else if tagName = "val" then
    if val = "null" then .ok "None"
    else if val = "true" ∨ val = "false" then .ok ("``" ++ val.capitalize ++ "``")
    else .ok val
  else if tagName = "field" then
    .ok ("``" ++ val ++ "``")
  else
    .error (.unknownDocTag tagName)

/-- Modelled from the spec: `CodeGenerator.process_doc` lives in
`stone/generator.py`, which is not under src/; the spec says doc text is
emitted "with inline cross-reference tags translated" by the handler.  A
doc is processed by translating each tag with the handler and
concatenating the pieces. -/
def process_doc (fmt : Fmt) : Doc → Except GenError String
  | [] => .ok ""
  | DocPart.text s :: rest =>
    epBind (process_doc fmt rest) fun r => .ok (s ++ r)
  | DocPart.tag t v :: rest =>
    epBind (_docf fmt t v) fun s =>
    epBind (process_doc fmt rest) fun r => .ok (s ++ r)

/-- `process_doc` lifted to an optional doc (an absent doc stays absent). -/
def process_doc_opt (fmt : Fmt) : Option Doc → Except GenError (Option String)
  | none => .ok none
  | some d => epBind (process_doc fmt d) fun s => .ok (some s)

/-- `_generate_python_value`: a TaggedValue renders as
`<namespace>.<union class name>.<tag>` (reading `.name` off the given
namespace, which is an AttributeError when the namespace is absent); any
other value renders through `fmt_obj`. -/
def _generate_python_value (fmt : Fmt) (namespace_name : Option String)
    (value : PyValue) : Except GenError String :=
  match value with
  | .tagRef union_name tag_name =>
    match namespace_name with
    | none => .error .attributeError
    | some n =>
      .ok (n ++ "." ++ fmt.class_name_for_data_type union_name ++ "." ++
        fmt.fmt_var tag_name)
  | .obj payload => .ok (fmt.fmt_obj (.obj payload))

/-- `_format_type_in_doc` on a route-level data type. -/
def _format_type_in_doc (fmt : Fmt) (namespace_name : String) (dt : ArgDT) :
    String :=
  if dt.is_void then "None"
  else if dt.is_user_defined then
    ":class:`dropbox." ++ namespace_name ++ "." ++ fmt.fmt_type_dt dt ++ "`"
  else fmt.fmt_type_dt dt

/-- `_format_type_in_doc` on a field's data type. -/
def _format_type_in_doc_f (fmt : Fmt) (namespace_name : String)
    (ft : FieldType) : String :=
  if ft.is_void then "None"
  else if ft.is_user_defined then
    ":class:`dropbox." ++ namespace_name ++ "." ++ fmt.fmt_type_f ft ++ "`"
  else fmt.fmt_type_f ft

/-- The extra-request-argument notes of the docstring parameter section. -/
def docExtraArgEvents (l : List (String × Option String × String)) :
    List Event :=
  l.map fun x =>
    match x with
    | (n, dtn, d) =>
      if strTruthy dtn then
        Event.wrapped 0 (":param " ++ dtn.getD "" ++ " " ++ n ++ ": " ++ d) "    "
      else
        Event.wrapped 0 (":param " ++ n ++ ": " ++ d) "    "

/-- The docstring entry (or entries) for one struct field: a documented
field shows its processed doc (typed inline for non-user-defined types,
with a separate type line for user-defined ones); an undocumented field
shows its type only. -/
def docStructFieldEvents (fmt : Fmt) (namespace_name : String) (f : Field) :
    Except GenError (List Event) :=
  match f.doc with
  | some d =>
    epBind (process_doc fmt d) fun pd =>
      let fieldDoc :=
        if f.data_type.is_user_defined then
          ":param " ++ f.name ++ ": " ++ pd
        else
          ":param " ++ _format_type_in_doc_f fmt namespace_name f.data_type ++
            " " ++ f.name ++ ": " ++ pd
      .ok ([Event.wrapped 0 fieldDoc "    "] ++
        (if f.data_type.is_user_defined then
          [Event.line 0 (":type " ++ f.name ++ ": " ++
            _format_type_in_doc_f fmt namespace_name f.data_type)]
        else []))
  | none =>
    .ok [Event.wrapped 0 (":type " ++ f.name ++ ": " ++
      _format_type_in_doc_f fmt namespace_name f.data_type) ""]

/-- `_generate_docstring_for_func`: assembles one documentation block, or
nothing when there is no overview and the argument type contributes no
fields. -/
def _generate_docstring_for_func (fmt : Fmt) (namespace_name : String)
    (arg_data_type result_data_type error_data_type : ArgDT)
    (overview : Option String)
    (extra_request_args : Option (List (String × Option String × String)))
    (extra_return_arg : Option String) (footer : Option String) :
    Except GenError (List Event) :=
  epBind (if arg_data_type.is_void then Except.ok [] else arg_data_type.fieldsA)
regularfields
where
  regularfields (fields : List Field) : Except GenError (List Event) :=
    if fields = [] ∧ strTruthy overview = false then .ok []
    else
      let overviewE :=
        if strTruthy overview then [Event.wrapped 0 (overview.getD "") ""] else []
      let eraT : Bool :=
        match extra_request_args with
        | some l => !l.isEmpty
        | none => false
      let paramsE : Except GenError (List Event) :=
        if eraT = true ∨ fields ≠ [] then
          let blankE := if strTruthy overview then [Event.line 0 ""] else []
          let eraE :=
            if eraT then docExtraArgEvents (extra_request_args.getD []) else []
          match arg_data_type with
          | .struct _ _ _ _ =>
            epBind (mapEFlat (docStructFieldEvents fmt namespace_name) fields)
              fun fe => .ok (blankE ++ eraE ++ fe)
          | .union _ udoc _ =>
            match udoc with
            | some d =>
              epBind (process_doc fmt d) fun pd =>
                .ok (blankE ++ eraE ++
                  [Event.wrapped 0 (":param arg: " ++ pd) "    ",
                   Event.line 0 (":type arg: " ++
                     _format_type_in_doc fmt namespace_name arg_data_type)])
            | none =>
              .ok (blankE ++ eraE ++
                [Event.line 0 (":type arg: " ++
                  _format_type_in_doc fmt namespace_name arg_data_type)])
          | _ => .ok (blankE ++ eraE)
        else .ok []
      epBind paramsE fun pe =>
        let afterBlank :=
          if strTruthy overview = true ∧ ¬(eraT = true ∨ fields ≠ []) then
            [Event.line 0 ""]
          else []
        let rtypeE :=
          if strTruthy extra_return_arg then
            [Event.mlist 0
              [(if result_data_type.is_void then "None"
                else _format_type_in_doc fmt namespace_name result_data_type),
               extra_return_arg.getD ""] ":rtype: " "" "(" ")" true]
          else if result_data_type.is_void then [Event.line 0 ":rtype: None"]
          else
            [Event.line 0 (":rtype: " ++
              _format_type_in_doc fmt namespace_name result_data_type)]
        epBind (if error_data_type.is_void then Except.ok []
                else error_data_type.fieldsA) fun efs =>
          let errE :=
            if error_data_type.is_void = false ∧ efs ≠ [] then
              [Event.line 0 ":raises: :class:`dropbox.exceptions.ApiError`",
               Event.line 0 "",
               Event.line 0 "If this raises, ApiError.reason is of type:"] ++
              ind [Event.line 0
                (_format_type_in_doc fmt namespace_name error_data_type)]
            else []
          let footE :=
            if strTruthy footer then
              [Event.line 0 "", Event.wrapped 0 (footer.getD "") ""]
            else []
          .ok ([Event.line 0 q3] ++
            (overviewE ++ pe ++ afterBlank ++ rtypeE ++ errE ++ footE) ++
            [Event.line 0 q3])

/-- The body of the per-field loop of `_generate_route_method_decl`: how
one struct field renders as a method parameter. -/
def declFieldArg (fmt : Fmt) (f : Field) : Except GenError String :=
  if f.data_type.is_nullable then .ok (f.name ++ "=None")
  else if f.has_default then
    let ns :=
      if f.data_type.is_user_defined then some f.data_type.namespace_name
      else none
    epBind (_generate_python_value fmt ns f.default) fun v =>
      .ok (f.name ++ "=" ++ v)
  else .ok f.name

/-- `_generate_route_method_decl`: the method prototype for a route. -/
def _generate_route_method_decl (fmt : Fmt) (namespace_name : String)
    (route : Route) (arg_data_type : ArgDT) (request_binary_body : Bool)
    (method_name_suffix : Option String) (extra_args : Option (List String)) :
    Except GenError Event :=
  let method_name := fmt.fmt_func route.name ++ method_name_suffix.getD ""
  let nsn := fmt.fmt_func namespace_name
  let args0 := ["self"] ++ extra_args.getD [] ++
    (if request_binary_body then ["f"] else [])
  let tailE : Except GenError (List String) :=
    match arg_data_type with
    | .struct _ _ _ afs => mapE (declFieldArg fmt) afs
    | .union _ _ _ => .ok ["arg"]
    | .void => .ok []
    | .other b => .error (.unhandledDeclType (.other b))
  epBind tailE fun tl =>
    .ok (Event.mlist 0 (args0 ++ tl)
      ("def " ++ nsn ++ "_" ++ method_name) ":" "(" ")" true)

/-- The request-argument materialization statements of the method body:
`arg = None` for Void, a literal of the wire type listing `all_fields` for
a Struct, nothing for a Union (whose parameter is passed through), a
raised AssertionError otherwise. -/
def materialize_request_arg (fmt : Fmt) (arg_data_type : ArgDT) :
    Except GenError (List Event) :=
  match arg_data_type with
  | .void => .ok [Event.line 0 "arg = None"]
  | .struct sNs sName _ afs =>
    .ok [Event.mlist 0 (afs.map Field.name)
      ("arg = " ++ sNs ++ "." ++ fmt.fmt_class sName) "" "(" ")" true]
  | .union _ _ _ => .ok []
  | .other b => .error (.unhandledHelperType (.other b))

/-- `_maybe_generate_deprecation_warning`: the warning statement emitted
for deprecated routes. -/
def _maybe_generate_deprecation_warning (route : Route) : List Event :=
  match route.deprecated with
  | none => []
  | some dep =>
    let msg := route.name ++ " is deprecated." ++
      (match dep.by_name with
       | some b => " Use " ++ b ++ "."
       | none => "")
    [Event.mlist 0 [apos ++ msg ++ apos, "DeprecationWarning"]
      "warnings.warn" "" "(" ")" false]

/-- `route.attrs.get` of the style key compared with the upload style. -/
def request_binary_body (route : Route) : Bool :=
  decide (route.style = some "upload")

/-- `route.attrs.get` of the style key compared with the download style. -/
def response_binary_body (route : Route) : Bool :=
  decide (route.style = some "download")

/-- The `r = self.request(...)` statement: route reference, quoted
namespace name, the materialized argument, and the binary body (`f` for
upload-style routes, a null otherwise). -/
def requestEvent (fmt : Fmt) (ns : Namespace) (route : Route) : Event :=
  Event.mlist 0
    ([ns.name ++ "." ++ fmt.fmt_var route.name,
      apos ++ ns.name ++ apos, "arg"] ++
     [if request_binary_body route then "f" else "None"])
    "r = self.request" "" "(" ")" false

/-- The closing statements of the method body: the file variant saves the
raw payload first and returns the decoded part, the plain variant returns
the whole result; a Void result returns a null either way. -/
def returnEvents (route : Route) (download_to_file : Bool) : List Event :=
  if download_to_file then
    [Event.line 0 "self._save_body_to_file(download_path, r[1])"] ++
    [Event.line 0
      (if route.result_data_type.is_void then "return None" else "return r[0]")]
  else
    [Event.line 0
      (if route.result_data_type.is_void then "return None" else "return r")]

/-- The extra request-argument descriptors passed to the docstring: the
binary-body parameter for upload-style routes, the destination path for
the file variant. -/
def helperExtraReqArgs (route : Route) (download_to_file : Bool) :
    Option (List (String × Option String × String)) :=
  if request_binary_body route then
    some [("f", none, "A string or file-like obj of data.")]
  else if download_to_file then
    some [("download_path", some "str", "Path on local machine to save file.")]
  else none

/-- The extra return-argument description passed to the docstring. -/
def helperExtraRetArg (route : Route) : Option String :=
  if response_binary_body route then some ":class:`requests.models.Response`"
  else none

/-- The docstring footer passed to the docstring. -/
def helperFooter (route : Route) (download_to_file : Bool) : Option String :=
  if response_binary_body route = true ∧ download_to_file = false then
    some DOCSTRING_CLOSE_RESPONSE
  else none

/-- The assert message guarding the file variant. -/
def downloadAssertMsg : String :=
  "download_to_file can only be set for download-style routes."

/-- `_generate_route_helper`: one generated method for a route (headed by
its prototype; its indented body is the docstring, the optional
deprecation warning, the argument materialization, the request statement
and the return logic), followed by a blank line. -/
def _generate_route_helper (fmt : Fmt) (ns : Namespace) (route : Route)
    (download_to_file : Bool) : Except GenError (List Event) :=
  let declE :=
    if download_to_file then
      if response_binary_body route then
        _generate_route_method_decl fmt ns.name route route.arg_data_type
          (request_binary_body route) (some "_to_file") (some ["download_path"])
      else .error (.assertFailed downloadAssertMsg)
    else
      _generate_route_method_decl fmt ns.name route route.arg_data_type
        (request_binary_body route) none none
  epBind declE fun decl =>
  epBind (process_doc_opt fmt route.doc) fun overview =>
  epBind (_generate_docstring_for_func fmt ns.name route.arg_data_type
      route.result_data_type route.error_data_type overview
      (helperExtraReqArgs route download_to_file)
      (helperExtraRetArg route) (helperFooter route download_to_file))
    fun docE =>
  epBind (materialize_request_arg fmt route.arg_data_type) fun matE =>
    .ok ([decl] ++
      ind (docE ++ _maybe_generate_deprecation_warning route ++ matE ++
        [requestEvent fmt ns route] ++ returnEvents route download_to_file) ++
      [Event.line 0 ""])

/-- `_generate_route`: the plain method, plus the file variant for
download-style routes. -/
def _generate_route (fmt : Fmt) (ns : Namespace) (route : Route) :
    Except GenError (List Event) :=
  epBind (_generate_route_helper fmt ns route false) fun a =>
    if route.style = some "download" then
      epBind (_generate_route_helper fmt ns route true) fun b => .ok (a ++ b)
    else .ok a

/-- `_generate_route_methods`: a banner per namespace with routes,
followed by that namespace's route methods. -/
def _generate_route_methods (fmt : Fmt) :
    List Namespace → Except GenError (List Event)
  | [] => .ok []
  | ns :: rest =>
    epBind (if ns.routes = [] then .ok []
            else
              epBind (mapEFlat (_generate_route fmt ns) ns.routes) fun res =>
                .ok ([Event.line 0 "# ------------------------------------------",
                      Event.line 0 ("# Routes in " ++ ns.name ++ " namespace"),
                      Event.line 0 ""] ++ res))
      fun es =>
    epBind (_generate_route_methods fmt rest) fun more => .ok (es ++ more)

/-- `_generate_imports`: import every namespace that has data types. -/
def _generate_imports (namespaces : List Namespace) : List Event :=
  [Event.line 0 "from . import ("] ++
  ind ((namespaces.filter fun ns => !ns.data_types.isEmpty).map
    fun ns => Event.line 0 (ns.name ++ ",")) ++
  [Event.line 0 ")"]

/-- `generate`: the whole module — header block, the deprecation-facility
line when any route anywhere is deprecated, namespace imports, the class
with its abstract request method, and every namespace's route methods. -/
def generate (fmt : Fmt) (class_name : String) (api : List Namespace) :
    Except GenError (List Event) :=
  epBind (_generate_route_methods fmt api) fun rms =>
    .ok ([Event.raw 0 base] ++
      (if api.any (fun ns => ns.routes.any fun r => r.deprecated.isSome) then
        [Event.line 0 "import warnings"]
      else []) ++
      [Event.line 0 ""] ++
      _generate_imports api ++
      [Event.line 0 "", Event.line 0 ""] ++
      [Event.line 0 ("class " ++ class_name ++ "(object):")] ++
      ind ([Event.line 0 "__metaclass__ = ABCMeta", Event.line 0 "",
            Event.line 0 "@abstractmethod",
            Event.line 0 "def request(self, route, namespace, arg, arg_binary=None):"] ++
           ind [Event.line 0 "pass"] ++
           [Event.line 0 ""] ++
           rms))

/-- Modelled from the spec: resolving a rendered default-value reference
(the consumer of `<namespace>.<class>.<tag>` strings is outside this
source file) reads off its dot-separated path components. -/
def resolve_value_ref (s : String) : List String :=
  (splitOnChar (Char.ofNat 46) s.data).map fun l => String.mk l

/-- The fields the docstring considers documentable for an argument data
type: none for Void, the type's own `fields` otherwise. -/
def docFieldsOf : ArgDT → List Field
  | .void => []
  | .struct _ _ fs _ => fs
  | .union _ _ fs => fs
  | .other _ => []

/-- A concrete instantiation of the external formatting helpers, used to
evaluate the generator on concrete schemas. -/
def fmtId : Fmt :=
  ⟨fun s => s, fun s => s, fun s => s,
   fun v => match v with | .tagRef a b => a ++ "." ++ b | .obj s => s,
   fun ft => ft.type_name, fun _ => "T", fun s => s⟩

/-- Inversion for the exception-propagating bind. -/
theorem epBind_ok {α β : Type} {x : Except GenError α}
    {f : α → Except GenError β} {b : β} (h : epBind x f = .ok b) :
    ∃ a, x = .ok a ∧ f a = .ok b := by
  cases x with
  | error e => exact Except.noConfusion h
  | ok a => exact ⟨a, rfl, h⟩

/-- Computation rule for `epBind` on a success. -/
@[simp] theorem epBind_ok_arg {α β : Type} (a : α)
    (f : α → Except GenError β) : epBind (.ok a) f = f a := rfl

/-- Computation rule for `epBind` on a failure. -/
@[simp] theorem epBind_error_arg {α β : Type} (e : GenError)
    (f : α → Except GenError β) :
    epBind (Except.error e : Except GenError α) f = .error e := rfl

/-- A successful `mapE` run has one output per input, each produced from
the corresponding input. -/
theorem mapE_ok {α β : Type} {g : α → Except GenError β} :
    ∀ {l : List α} {bs : List β}, mapE g l = .ok bs →
      bs.length = l.length ∧
      ∀ i (h1 : i < l.length) (h2 : i < bs.length),
        g (l.get ⟨i, h1⟩) = .ok (bs.get ⟨i, h2⟩) := by
  intro l
  induction l with
  | nil =>
    intro bs h
    simp only [mapE] at h
    cases h
    exact ⟨rfl, fun i h1 _ => absurd h1 (Nat.not_lt_zero i)⟩
  | cons a as ih =>
    intro bs h
    simp only [mapE] at h
    obtain ⟨b, hb, h⟩ := epBind_ok h
    obtain ⟨bs', hbs', h⟩ := epBind_ok h
    cases h
    obtain ⟨hlen, hget⟩ := ih hbs'
    refine ⟨by simp [hlen], ?_⟩
    intro i h1 h2
    match i with
    | 0 => simpa using hb
    | Nat.succ j =>
      exact hget j (Nat.lt_of_succ_lt_succ h1) (Nat.lt_of_succ_lt_succ h2)

/-- Rebuilding a string from its character data is the identity. -/
theorem mk_data (s : String) : String.mk s.data = s := rfl

/-- A string starting with prefix `p` differs from any string whose first
characters do not spell `p`. -/
theorem str_ne_of_take {p x t : String}
    (h : t.data.take p.data.length ≠ p.data) : p ++ x ≠ t := by
  intro he
  apply h
  rw [← he, String.data_append, List.take_left]

/-- String append is left-cancellative. -/
theorem str_append_left_cancel {a b c : String} (h : a ++ b = a ++ c) :
    b = c := by
  have hd : a.data ++ b.data = a.data ++ c.data := by
    rw [← String.data_append, ← String.data_append, h]
  have hbc := List.append_cancel_left hd
  calc b = String.mk b.data := rfl
    _ = String.mk c.data := by rw [hbc]
    _ = c := rfl

end Stone

namespace Stone

/-- A successful helper run decomposes into its prototype, docstring,
deprecation warning, materialization, request and return parts, in that
order. -/
theorem helper_ok_decomp {fmt : Fmt} {ns : Namespace} {route : Route}
    {dtf : Bool} {evs : List Event}
    (h : _generate_route_helper fmt ns route dtf = .ok evs) :
    ∃ decl ov docE matE,
      (if dtf then
        response_binary_body route = true ∧
        _generate_route_method_decl fmt ns.name route route.arg_data_type
          (request_binary_body route) (some "_to_file")
          (some ["download_path"]) = .ok decl
      else
        _generate_route_method_decl fmt ns.name route route.arg_data_type
          (request_binary_body route) none none = .ok decl) ∧
      process_doc_opt fmt route.doc = .ok ov ∧
      _generate_docstring_for_func fmt ns.name route.arg_data_type
        route.result_data_type route.error_data_type ov
        (helperExtraReqArgs route dtf) (helperExtraRetArg route)
        (helperFooter route dtf) = .ok docE ∧
      materialize_request_arg fmt route.arg_data_type = .ok matE ∧
      evs = [decl] ++ ind (docE ++ _maybe_generate_deprecation_warning route ++
        matE ++ [requestEvent fmt ns route] ++ returnEvents route dtf) ++
        [Event.line 0 ""] := by
  unfold _generate_route_helper at h
  cases dtf with
  | false =>
    simp only [Bool.false_eq_true, if_false] at h
    obtain ⟨decl, hdecl, h⟩ := epBind_ok h
    obtain ⟨ov, hov, h⟩ := epBind_ok h
    obtain ⟨docE, hdoc, h⟩ := epBind_ok h
    obtain ⟨matE, hmat, h⟩ := epBind_ok h
    injection h with h
    exact ⟨decl, ov, docE, matE, by simp [hdecl], hov, hdoc, hmat, h.symm⟩
  | true =>
    simp only [if_true] at h
    cases hrb : response_binary_body route with
    | false =>
      rw [hrb] at h
      simp only [Bool.false_eq_true, if_false, epBind_error_arg] at h
      exact Except.noConfusion h
    | true =>
      rw [hrb] at h
      simp only [if_true] at h
      obtain ⟨decl, hdecl, h⟩ := epBind_ok h
      obtain ⟨ov, hov, h⟩ := epBind_ok h
      obtain ⟨docE, hdoc, h⟩ := epBind_ok h
      obtain ⟨matE, hmat, h⟩ := epBind_ok h
      injection h with h
      exact ⟨decl, ov, docE, matE, by simp [hrb, hdecl], hov, hdoc, hmat, h.symm⟩

/-- A successful prototype is always a single delimited list starting with
the receiver, the extra arguments, and the binary-body parameter. -/
theorem decl_ok_shape {fmt : Fmt} {nsName : String} {route : Route}
    {adt : ArgDT} {rbb : Bool} {sfx : Option String}
    {xargs : Option (List String)} {ev : Event}
    (h : _generate_route_method_decl fmt nsName route adt rbb sfx xargs = .ok ev) :
    ∃ tl, ev = Event.mlist 0
      ((["self"] ++ xargs.getD [] ++ (if rbb then ["f"] else [])) ++ tl)
      ("def " ++ fmt.fmt_func nsName ++ "_" ++
        (fmt.fmt_func route.name ++ sfx.getD "")) ":" "(" ")" true := by
  unfold _generate_route_method_decl at h
  obtain ⟨tl, -, h2⟩ := epBind_ok h
  injection h2 with h2
  exact ⟨tl, h2.symm⟩

/-- For a struct argument the prototype's parameter tail is the per-field
rendering of `all_fields`. -/
theorem decl_struct_params {fmt : Fmt} {nsName : String} {route : Route}
    {rbb : Bool} {sfx : Option String} {xargs : Option (List String)}
    {sNs sName : String} {fs afs : List Field} {ev : Event}
    (h : _generate_route_method_decl fmt nsName route (.struct sNs sName fs afs)
      rbb sfx xargs = .ok ev) :
    ∃ tl, mapE (declFieldArg fmt) afs = .ok tl ∧
      ev = Event.mlist 0
        ((["self"] ++ xargs.getD [] ++ (if rbb then ["f"] else [])) ++ tl)
        ("def " ++ fmt.fmt_func nsName ++ "_" ++
          (fmt.fmt_func route.name ++ sfx.getD "")) ":" "(" ")" true := by
  unfold _generate_route_method_decl at h
  obtain ⟨tl, htl, h2⟩ := epBind_ok h
  injection h2 with h2
  exact ⟨tl, htl, h2.symm⟩

/-- How one struct field can render as a parameter: `name=None` when
nullable, `name=<rendered default>` when it has a default, the bare name
otherwise. -/
theorem declFieldArg_ok_cases {fmt : Fmt} {f : Field} {s : String}
    (h : declFieldArg fmt f = .ok s) :
    (f.data_type.is_nullable = true ∧ s = f.name ++ "=None") ∨
    (f.data_type.is_nullable = false ∧ f.has_default = true ∧
      ∃ v, _generate_python_value fmt
        (if f.data_type.is_user_defined then some f.data_type.namespace_name
         else none) f.default = .ok v ∧ s = f.name ++ "=" ++ v) ∨
    (f.data_type.is_nullable = false ∧ f.has_default = false ∧ s = f.name) := by
  unfold declFieldArg at h
  cases hnul : f.data_type.is_nullable with
  | true =>
    rw [hnul] at h
    simp only [if_true] at h
    injection h with h
    exact Or.inl ⟨rfl, h.symm⟩
  | false =>
    rw [hnul] at h
    simp only [Bool.false_eq_true, if_false] at h
    cases hdef : f.has_default with
    | true =>
      rw [hdef] at h
      simp only [if_true] at h
      obtain ⟨v, hv, h⟩ := epBind_ok h
      injection h with h
      exact Or.inr (Or.inl ⟨rfl, rfl, v, hv, h.symm⟩)
    | false =>
      rw [hdef] at h
      simp only [Bool.false_eq_true, if_false] at h
      injection h with h
      exact Or.inr (Or.inr ⟨rfl, rfl, h.symm⟩)

end Stone

namespace Stone

/-- Splitting a list not containing the separator yields that list alone. -/
theorem splitOnChar_not_mem {c : Char} :
    ∀ {l : List Char}, c ∉ l → splitOnChar c l = [l] := by
  intro l
  induction l with
  | nil => intro _; rfl
  | cons x xs ih =>
    intro h
    have hx : ¬x = c := fun he => h (he ▸ List.mem_cons_self x xs)
    have hxs : c ∉ xs := fun hm => h (List.mem_cons_of_mem x hm)
    simp only [splitOnChar, if_neg hx, ih hxs]

/-- Splitting past a separator-free chunk peels off that chunk. -/
theorem splitOnChar_append {c : Char} :
    ∀ {a : List Char} (rest : List Char), c ∉ a →
      splitOnChar c (a ++ c :: rest) = a :: splitOnChar c rest := by
  intro a
  induction a with
  | nil =>
    intro rest _
    simp [splitOnChar]
  | cons x a' ih =>
    intro rest h
    have hx : ¬x = c := fun he => h (he ▸ List.mem_cons_self x a')
    have ha' : c ∉ a' := fun hm => h (List.mem_cons_of_mem x hm)
    simp only [List.cons_append, splitOnChar, if_neg hx, List.append_eq]
    rw [ih rest ha']

/-- C8: rendering a TaggedValue default produces the reference string
`<namespace>.<union class name>.<tag name>`, and resolving that rendered
reference recovers the same (namespace, union class, tag) triple, for
path components free of the separator character. -/
theorem c8_tagref_roundtrip (fmt : Fmt) (nsn uname tagn : String)
    (h1 : Char.ofNat 46 ∉ nsn.data)
    (h2 : Char.ofNat 46 ∉ (fmt.class_name_for_data_type uname).data)
    (h3 : Char.ofNat 46 ∉ (fmt.fmt_var tagn).data) :
    _generate_python_value fmt (some nsn) (.tagRef uname tagn) =
      .ok (nsn ++ "." ++ fmt.class_name_for_data_type uname ++ "." ++
        fmt.fmt_var tagn) ∧
    resolve_value_ref (nsn ++ "." ++ fmt.class_name_for_data_type uname ++
        "." ++ fmt.fmt_var tagn) =
      [nsn, fmt.class_name_for_data_type uname, fmt.fmt_var tagn] := by
  constructor
  · rfl
  · have hdot : (".").data = [Char.ofNat 46] := by decide
    unfold resolve_value_ref
    rw [String.data_append, String.data_append, String.data_append,
      String.data_append, hdot]
    rw [List.append_assoc, List.append_assoc, List.append_assoc,
      List.singleton_append]
    rw [splitOnChar_append _ h1, List.singleton_append,
      splitOnChar_append _ h2, splitOnChar_not_mem h3]
    simp only [List.map_cons, List.map_nil, mk_data]

/-- C8 witness: the round trip at a concrete triple. -/
theorem c8_witness :
    _generate_python_value fmtId (some "files") (.tagRef "WriteMode" "add") =
      .ok ("files" ++ "." ++ fmtId.class_name_for_data_type "WriteMode" ++
        "." ++ fmtId.fmt_var "add") ∧
    resolve_value_ref ("files" ++ "." ++
        fmtId.class_name_for_data_type "WriteMode" ++ "." ++
        fmtId.fmt_var "add") =
      ["files", fmtId.class_name_for_data_type "WriteMode",
       fmtId.fmt_var "add"] :=
  c8_tagref_roundtrip fmtId "files" "WriteMode" "add"
    (by decide) (by decide) (by decide)

end Stone

namespace Stone

/-- C7: the inline doc-tag translator is a closed mapping over exactly the
tags `type`, `route`, `link`, `val` and `field`: `type` maps to a class
reference, `route` to a method reference through the method-name
formatter, `link` to `<anchor> <url>` split at the last space, `val` to
None for `null`, to a capitalized boolean literal for `true`/`false`, and
to the payload verbatim otherwise, `field` to an inline code literal; any
other tag raises a fatal error reporting the tag. -/
theorem c7_docf_closed_mapping (fmt : Fmt) (tagName val anchor url : String) :
    _docf fmt "type" val = .ok (":class:`" ++ val ++ "`") ∧
    _docf fmt "route" val = .ok (":meth:`" ++ fmt.fmt_func val ++ "`") ∧
    (rsplitLast val = some (anchor, url) →
      _docf fmt "link" val = .ok ("`" ++ anchor ++ " <" ++ url ++ ">`_")) ∧
    _docf fmt "val" "null" = .ok "None" ∧
    _docf fmt "val" "true" = .ok "``True``" ∧
    _docf fmt "val" "false" = .ok "``False``" ∧
    (val ≠ "null" → val ≠ "true" → val ≠ "false" →
      _docf fmt "val" val = .ok val) ∧
    _docf fmt "field" val = .ok ("``" ++ val ++ "``") ∧
    (tagName ≠ "type" → tagName ≠ "route" → tagName ≠ "link" →
      tagName ≠ "val" → tagName ≠ "field" →
      _docf fmt tagName val = .error (.unknownDocTag tagName)) := by
  refine ⟨rfl, rfl, ?_, rfl, rfl, rfl, ?_, rfl, ?_⟩
  · intro h
    show (match rsplitLast val with
      | none => Except.error GenError.valueError
      | some (anchor, url) => .ok ("`" ++ anchor ++ " <" ++ url ++ ">`_")) = _
    rw [h]
  · intro h1 h2 h3
    show (if val = "null" then Except.ok "None"
      else if val = "true" ∨ val = "false" then
        .ok ("``" ++ val.capitalize ++ "``")
      else .ok val) = _
    rw [if_neg h1, if_neg (by simp [h2, h3])]
  · intro h1 h2 h3 h4 h5
    simp [_docf, h1, h2, h3, h4, h5]

/-- C7 witness: the translator at concrete payloads, including the
last-space split and an unknown tag. -/
theorem c7_witness :
    rsplitLast "Dropbox home page https://www.dropbox.com" =
      some ("Dropbox home page", "https://www.dropbox.com") ∧
    _docf fmtId "link" "Dropbox home page https://www.dropbox.com" =
      .ok ("`" ++ "Dropbox home page" ++ " <" ++ "https://www.dropbox.com" ++ ">`_") ∧
    _docf fmtId "val" "42" = .ok "42" ∧
    _docf fmtId "bogus" "x" = .error (.unknownDocTag "bogus") :=
  ⟨by decide,
   (c7_docf_closed_mapping fmtId "bogus" "Dropbox home page https://www.dropbox.com"
      "Dropbox home page" "https://www.dropbox.com").2.2.1 (by decide),
   (c7_docf_closed_mapping fmtId "bogus" "42" "" "").2.2.2.2.2.2.1
      (by decide) (by decide) (by decide),
   (c7_docf_closed_mapping fmtId "bogus" "x" "" "").2.2.2.2.2.2.2.2
      (by decide) (by decide) (by decide) (by decide) (by decide)⟩

/-- C9: a route argument data type that is none of Void, Struct or Union
makes both the prototype construction and the request-argument
materialization abort with a fatal error carrying the offending value, and
requesting the file variant for a route whose style is not download is a
fatal precondition failure. -/
theorem c9_fatal_on_invalid (fmt : Fmt) (namespace_name : String)
    (route : Route) (b : Bool) (rbb : Bool) (sfx : Option String)
    (xargs : Option (List String)) (ns : Namespace) (route2 : Route)
    (h : route2.style ≠ some "download") :
    _generate_route_method_decl fmt namespace_name route (.other b) rbb sfx
      xargs = .error (.unhandledDeclType (.other b)) ∧
    materialize_request_arg fmt (.other b) =
      .error (.unhandledHelperType (.other b)) ∧
    _generate_route_helper fmt ns route2 true =
      .error (.assertFailed downloadAssertMsg) := by
  refine ⟨rfl, rfl, ?_⟩
  have hrb : response_binary_body route2 = false := by
    simp [response_binary_body, h]
  simp [_generate_route_helper, hrb]

/-- A concrete route whose argument data type is outside the closed
variant and whose style is unset. -/
def rOtherW : Route := ⟨"bad", .other false, .void, .void, none, none, none⟩

/-- A concrete namespace holding `rOtherW`. -/
def nsOtherW : Namespace := ⟨"ns1", [], [rOtherW]⟩

/-- C9 witness: the three failures at a concrete schema. -/
theorem c9_witness :
    _generate_route_method_decl fmtId "ns1" rOtherW (.other false) false none
      none = .error (.unhandledDeclType (.other false)) ∧
    materialize_request_arg fmtId (.other false) =
      .error (.unhandledHelperType (.other false)) ∧
    _generate_route_helper fmtId nsOtherW rOtherW true =
      .error (.assertFailed downloadAssertMsg) :=
  c9_fatal_on_invalid fmtId "ns1" rOtherW false false none none nsOtherW
    rOtherW (by decide)

end Stone

namespace Stone

/-- C2: the body materializes the request argument before the request
call: an explicit `arg = None` assignment for a Void argument, a literal
of the wire type built from exactly the `all_fields` names in declared
order for a Struct, and no materialization statement for a Union (whose
single parameter `arg` is passed straight to the request); in every
successful method the materialization statements sit between the
docstring/deprecation part and the request statement. -/
theorem c2_materialization (fmt : Fmt) :
    materialize_request_arg fmt .void = .ok [Event.line 0 "arg = None"] ∧
    (∀ sNs sName fs afs,
      materialize_request_arg fmt (.struct sNs sName fs afs) =
        .ok [Event.mlist 0 (afs.map Field.name)
          ("arg = " ++ sNs ++ "." ++ fmt.fmt_class sName) "" "(" ")" true]) ∧
    (∀ uname udoc ufs,
      materialize_request_arg fmt (.union uname udoc ufs) = .ok []) ∧
    (∀ ns route dtf evs, _generate_route_helper fmt ns route dtf = .ok evs →
      ∃ decl docE matE,
        materialize_request_arg fmt route.arg_data_type = .ok matE ∧
        evs = [decl] ++ ind (docE ++ _maybe_generate_deprecation_warning route
          ++ matE ++ [requestEvent fmt ns route] ++ returnEvents route dtf) ++
          [Event.line 0 ""]) := by
  refine ⟨rfl, fun _ _ _ _ => rfl, fun _ _ _ => rfl, ?_⟩
  intro ns route dtf evs h
  obtain ⟨decl, ov, docE, matE, -, -, -, hmat, hevs⟩ := helper_ok_decomp h
  exact ⟨decl, docE, matE, hmat, hevs⟩

/-- A concrete void-argument route and its namespace. -/
def rVoidW : Route := ⟨"ping", .void, .void, .void, none, none, none⟩

/-- A concrete namespace holding `rVoidW`. -/
def nsVoidW : Namespace := ⟨"misc", [], [rVoidW]⟩

/-- C2 witness: the Void materialization and the body decomposition of a
concretely generated method. -/
theorem c2_witness :
    materialize_request_arg fmtId ArgDT.void = .ok [Event.line 0 "arg = None"] ∧
    materialize_request_arg fmtId (.union "U" none []) = .ok [] ∧
    (∃ decl docE matE,
      materialize_request_arg fmtId rVoidW.arg_data_type = .ok matE ∧
      (_generate_route_helper fmtId nsVoidW rVoidW false).toOption.getD [] =
        [decl] ++ ind (docE ++ _maybe_generate_deprecation_warning rVoidW
          ++ matE ++ [requestEvent fmtId nsVoidW rVoidW] ++
          returnEvents rVoidW false) ++ [Event.line 0 ""]) :=
  ⟨(c2_materialization fmtId).1,
   (c2_materialization fmtId).2.2.1 "U" none [],
   (c2_materialization fmtId).2.2.2 nsVoidW rVoidW false
     ((_generate_route_helper fmtId nsVoidW rVoidW false).toOption.getD [])
     rfl⟩

end Stone

namespace Stone

/-- A boolean cannot be both true and false. -/
theorem bool_absurd {x : Bool} {C : Prop} (h1 : x = true) (h2 : x = false) :
    C := by
  rw [h2] at h1
  exact Bool.noConfusion h1

/-- C1: for a Struct-argument route the prototype lists, after the
receiver and any extra/binary parameters, exactly one parameter per
`all_fields` entry in order — `name=None` for a nullable field,
`name=<rendered default>` for a non-nullable field with a declared
default, and the bare required name otherwise. -/
theorem c1_struct_signature (fmt : Fmt) (nsName : String) (route : Route)
    (rbb : Bool) (sfx : Option String) (xargs : Option (List String))
    (sNs sName : String) (fs afs : List Field) (ev : Event)
    (harg : route.arg_data_type = ArgDT.struct sNs sName fs afs)
    (hok : _generate_route_method_decl fmt nsName route route.arg_data_type
      rbb sfx xargs = .ok ev) :
    ∃ params : List String,
      ev = Event.mlist 0
        ((["self"] ++ xargs.getD [] ++ (if rbb then ["f"] else [])) ++ params)
        ("def " ++ fmt.fmt_func nsName ++ "_" ++
          (fmt.fmt_func route.name ++ sfx.getD "")) ":" "(" ")" true ∧
      params.length = afs.length ∧
      ∀ i (h1 : i < afs.length) (h2 : i < params.length),
        ((afs.get ⟨i, h1⟩).data_type.is_nullable = true →
          params.get ⟨i, h2⟩ = (afs.get ⟨i, h1⟩).name ++ "=None") ∧
        ((afs.get ⟨i, h1⟩).data_type.is_nullable = false →
          (afs.get ⟨i, h1⟩).has_default = true →
          ∃ v, _generate_python_value fmt
            (if (afs.get ⟨i, h1⟩).data_type.is_user_defined then
              some (afs.get ⟨i, h1⟩).data_type.namespace_name
             else none) (afs.get ⟨i, h1⟩).default = .ok v ∧
            params.get ⟨i, h2⟩ = (afs.get ⟨i, h1⟩).name ++ "=" ++ v) ∧
        ((afs.get ⟨i, h1⟩).data_type.is_nullable = false →
          (afs.get ⟨i, h1⟩).has_default = false →
          params.get ⟨i, h2⟩ = (afs.get ⟨i, h1⟩).name) := by
  rw [harg] at hok
  obtain ⟨tl, htl, hev⟩ := decl_struct_params hok
  obtain ⟨hlen, hget⟩ := mapE_ok htl
  refine ⟨tl, hev, hlen, ?_⟩
  intro i h1 h2
  have hg := hget i h1 h2
  rcases declFieldArg_ok_cases hg with ⟨hnul, hs⟩ | ⟨hnul, hdef, v, hv, hs⟩ |
    ⟨hnul, hdef, hs⟩
  · exact ⟨fun _ => hs, fun hn _ => bool_absurd hnul hn,
      fun hn _ => bool_absurd hnul hn⟩
  · exact ⟨fun hn => bool_absurd hn hnul,
      fun _ _ => ⟨v, hv, hs⟩,
      fun _ hd => bool_absurd hdef hd⟩
  · exact ⟨fun hn => bool_absurd hn hnul,
      fun _ hd => bool_absurd hd hdef,
      fun _ _ => hs⟩

/-- The non-nullable string field `path` of the concrete scenario. -/
def fPathW : Field :=
  ⟨"path", ⟨false, false, false, "", "String"⟩, none, false, .obj "u"⟩

/-- The nullable boolean field `include_media_info` of the concrete
scenario. -/
def fIMIW : Field :=
  ⟨"include_media_info", ⟨true, false, false, "", "Boolean"⟩, none, false,
   .obj "u"⟩

/-- The Struct argument type of the concrete `get_metadata` scenario. -/
def argGetMetadataW : ArgDT :=
  .struct "files" "GetMetadataArg" [fPathW, fIMIW] [fPathW, fIMIW]

/-- The concrete `get_metadata` route of the spec scenario. -/
def rGetMetadataW : Route :=
  ⟨"get_metadata", argGetMetadataW, .other false, .void, none, none, none⟩

/-- C1 witness: the spec's `files.get_metadata` scenario — the prototype
renders as `files_get_metadata(self, path, include_media_info=None)`. -/
theorem c1_witness :
    ∃ params : List String,
      Event.mlist 0 ["self", "path", "include_media_info=None"]
          "def files_get_metadata" ":" "(" ")" true =
        Event.mlist 0
          ((["self"] ++ (none : Option (List String)).getD [] ++
            (if false then ["f"] else [])) ++ params)
          ("def " ++ fmtId.fmt_func "files" ++ "_" ++
            (fmtId.fmt_func rGetMetadataW.name ++
              (none : Option String).getD "")) ":" "(" ")" true ∧
      params.length = [fPathW, fIMIW].length ∧
      ∀ i (h1 : i < [fPathW, fIMIW].length) (h2 : i < params.length),
        (([fPathW, fIMIW].get ⟨i, h1⟩).data_type.is_nullable = true →
          params.get ⟨i, h2⟩ = ([fPathW, fIMIW].get ⟨i, h1⟩).name ++ "=None") ∧
        (([fPathW, fIMIW].get ⟨i, h1⟩).data_type.is_nullable = false →
          ([fPathW, fIMIW].get ⟨i, h1⟩).has_default = true →
          ∃ v, _generate_python_value fmtId
            (if ([fPathW, fIMIW].get ⟨i, h1⟩).data_type.is_user_defined then
              some ([fPathW, fIMIW].get ⟨i, h1⟩).data_type.namespace_name
             else none) ([fPathW, fIMIW].get ⟨i, h1⟩).default = .ok v ∧
            params.get ⟨i, h2⟩ = ([fPathW, fIMIW].get ⟨i, h1⟩).name ++ "=" ++ v) ∧
        (([fPathW, fIMIW].get ⟨i, h1⟩).data_type.is_nullable = false →
          ([fPathW, fIMIW].get ⟨i, h1⟩).has_default = false →
          params.get ⟨i, h2⟩ = ([fPathW, fIMIW].get ⟨i, h1⟩).name) :=
  c1_struct_signature fmtId "files" rGetMetadataW false none none
    "files" "GetMetadataArg" [fPathW, fIMIW] [fPathW, fIMIW]
    (Event.mlist 0 ["self", "path", "include_media_info=None"]
      "def files_get_metadata" ":" "(" ")" true) rfl rfl

end Stone

namespace Stone

/-- C10: a Struct-argument field that is both nullable and has a declared
default renders as `name=None`; the nullable rule takes precedence, so the
declared default is never what the parameter shows (any `name=<v>`
reading of the parameter forces `<v>` to be the absent marker `None`). -/
theorem c10_nullable_overrides_default (fmt : Fmt) (nsName : String)
    (route : Route) (rbb : Bool) (sfx : Option String)
    (xargs : Option (List String)) (sNs sName : String) (fs afs : List Field)
    (ev : Event) (i : Nat)
    (harg : route.arg_data_type = ArgDT.struct sNs sName fs afs)
    (hok : _generate_route_method_decl fmt nsName route route.arg_data_type
      rbb sfx xargs = .ok ev)
    (h1 : i < afs.length)
    (hnul : (afs.get ⟨i, h1⟩).data_type.is_nullable = true)
    (hdef : (afs.get ⟨i, h1⟩).has_default = true) :
    ∃ (params : List String) (h2 : i < params.length),
      ev = Event.mlist 0
        ((["self"] ++ xargs.getD [] ++ (if rbb then ["f"] else [])) ++ params)
        ("def " ++ fmt.fmt_func nsName ++ "_" ++
          (fmt.fmt_func route.name ++ sfx.getD "")) ":" "(" ")" true ∧
      params.get ⟨i, h2⟩ = (afs.get ⟨i, h1⟩).name ++ "=None" ∧
      ∀ v, params.get ⟨i, h2⟩ = (afs.get ⟨i, h1⟩).name ++ "=" ++ v →
        v = "None" := by
  rw [harg] at hok
  obtain ⟨tl, htl, hev⟩ := decl_struct_params hok
  obtain ⟨hlen, hget⟩ := mapE_ok htl
  have h2 : i < tl.length := by rw [hlen]; exact h1
  have hg := hget i h1 h2
  rcases declFieldArg_ok_cases hg with ⟨-, hs⟩ | ⟨hnul2, -, -, -, -⟩ |
    ⟨-, hdef2, -⟩
  · refine ⟨tl, h2, hev, hs, ?_⟩
    intro v hv
    rw [hs] at hv
    have h4 : ((afs.get ⟨i, h1⟩).name ++ "=") ++ "None" =
        ((afs.get ⟨i, h1⟩).name ++ "=") ++ v := by
      rw [String.append_assoc]
      exact hv
    exact (str_append_left_cancel h4).symm
  · exact bool_absurd hnul hnul2
  · exact bool_absurd hdef hdef2

/-- A concrete field that is both nullable and carries a declared
default. -/
def fNulDefW : Field :=
  ⟨"flag", ⟨true, false, false, "", "Boolean"⟩, none, true, .obj "False"⟩

/-- A concrete route whose Struct argument holds `fNulDefW`. -/
def rNulDefW : Route :=
  ⟨"nd", .struct "ns2" "NdArg" [fNulDefW] [fNulDefW], .void, .void, none,
   none, none⟩

/-- C10 witness: the nullable-with-default field renders as
`flag=None`. -/
theorem c10_witness :
    ∃ (params : List String) (h2 : 0 < params.length),
      Event.mlist 0 ["self", "flag=None"] "def ns2_nd" ":" "(" ")" true =
        Event.mlist 0
          ((["self"] ++ (none : Option (List String)).getD [] ++
            (if false then ["f"] else [])) ++ params)
          ("def " ++ fmtId.fmt_func "ns2" ++ "_" ++
            (fmtId.fmt_func rNulDefW.name ++ (none : Option String).getD ""))
          ":" "(" ")" true ∧
      params.get ⟨0, h2⟩ = ([fNulDefW].get ⟨0, by decide⟩).name ++ "=None" ∧
      ∀ v, params.get ⟨0, h2⟩ = ([fNulDefW].get ⟨0, by decide⟩).name ++ "=" ++ v →
        v = "None" :=
  c10_nullable_overrides_default fmtId "ns2" rNulDefW false none none
    "ns2" "NdArg" [fNulDefW] [fNulDefW]
    (Event.mlist 0 ["self", "flag=None"] "def ns2_nd" ":" "(" ")" true)
    0 rfl rfl (by decide) (by decide) (by decide)

end Stone

namespace Stone

/-- A successful read of the `fields` local of the docstring synthesizer
yields exactly the documentable fields of the argument type. -/
theorem docstring_fields_eq {adt : ArgDT} {fields : List Field}
    (h : (if adt.is_void then Except.ok [] else adt.fieldsA) = .ok fields) :
    fields = docFieldsOf adt := by
  cases adt with
  | void => injection h with h; exact h.symm
  | struct a b c d => injection h with h; exact h.symm
  | union a b c => injection h with h; exact h.symm
  | other b => exact Except.noConfusion h

/-- A list with one element appended on each side is a cons ending in the
right element. -/
theorem exists_mid {a b : Event} (A : List Event) :
    ∃ mid, [a] ++ A ++ [b] = a :: (mid ++ [b]) := ⟨A, by simp⟩

/-- C6: the docstring block is omitted exactly when there is no overview
text and the argument type contributes no documentable fields; in every
other successful case exactly one block is emitted, opened and closed by
the docstring delimiter. -/
theorem c6_docstring_skip_iff (fmt : Fmt) (nsName : String)
    (adt rdt edt : ArgDT) (overview : Option String)
    (era : Option (List (String × Option String × String)))
    (extra_ret : Option String) (footer : Option String) (evs : List Event)
    (hok : _generate_docstring_for_func fmt nsName adt rdt edt overview era
      extra_ret footer = .ok evs) :
    (evs = [] ↔ (docFieldsOf adt = [] ∧ strTruthy overview = false)) ∧
    (evs ≠ [] → ∃ mid, evs = Event.line 0 q3 :: (mid ++ [Event.line 0 q3])) := by
  unfold _generate_docstring_for_func at hok
  obtain ⟨fields, hf, hreg⟩ := epBind_ok hok
  have hfd := docstring_fields_eq hf
  subst hfd
  unfold _generate_docstring_for_func.regularfields at hreg
  split at hreg
  · rename_i hcond
    injection hreg with hreg
    subst hreg
    exact ⟨by simp [hcond], fun hne => absurd rfl hne⟩
  · rename_i hcond
    obtain ⟨pe, -, hreg⟩ := epBind_ok hreg
    obtain ⟨efs, -, hreg⟩ := epBind_ok hreg
    injection hreg with hreg
    subst hreg
    constructor
    · constructor
      · intro h
        exact absurd h (by simp)
      · intro h
        exact absurd h hcond
    · intro _
      exact exists_mid _

end Stone

namespace Stone

/-- The concretely generated docstring of the `get_metadata` scenario. -/
def c6evsW : List Event :=
  (_generate_docstring_for_func fmtId "files" argGetMetadataW (.other false)
    .void none none none none).toOption.getD []

/-- C6 witness: with two documentable fields and no overview, the block is
emitted, delimited on both ends. -/
theorem c6_witness :
    (c6evsW = [] ↔ (docFieldsOf argGetMetadataW = [] ∧ strTruthy none = false)) ∧
    (c6evsW ≠ [] → ∃ mid, c6evsW = Event.line 0 q3 :: (mid ++ [Event.line 0 q3])) :=
  c6_docstring_skip_iff fmtId "files" argGetMetadataW (.other false) .void
    none none none none c6evsW rfl

/-- No event inside an indentation scope is a depth-zero line. -/
theorem countP_line0_ind (l : List Event) (s : String) :
    (ind l).countP (fun e => decide (e = Event.line 0 s)) = 0 := by
  rw [List.countP_eq_zero]
  intro a ha
  rcases List.mem_map.mp ha with ⟨e, -, rfl⟩
  cases e <;> simp [bump]

end Stone

namespace Stone

/-- C5: the generated module contains the `import warnings` line (at
module depth) exactly once if and only if some route in some namespace is
deprecated; and for every deprecated route, every generated method variant
carries the deprecation-warning statement — whose message is
`<route name> is deprecated.` extended with ` Use <replacement>.` when a
replacement is named — as the first body statement after the docstring,
before the argument materialization. -/
theorem c5_deprecation (fmt : Fmt) (cn : String) (api : List Namespace)
    (evs : List Event)
    (hok : generate fmt cn api = .ok evs) :
    evs.countP (fun e => decide (e = Event.line 0 "import warnings")) =
      (if api.any (fun ns => ns.routes.any fun r => r.deprecated.isSome)
       then 1 else 0) ∧
    (∀ (ns : Namespace) (route : Route) (dtf : Bool) (evs' : List Event)
        (dep : DeprecationInfo), route.deprecated = some dep →
      _generate_route_helper fmt ns route dtf = .ok evs' →
      ∃ decl ov docE matE,
        process_doc_opt fmt route.doc = .ok ov ∧
        _generate_docstring_for_func fmt ns.name route.arg_data_type
          route.result_data_type route.error_data_type ov
          (helperExtraReqArgs route dtf) (helperExtraRetArg route)
          (helperFooter route dtf) = .ok docE ∧
        materialize_request_arg fmt route.arg_data_type = .ok matE ∧
        evs' = [decl] ++ ind (docE ++
          [Event.mlist 0 [apos ++ (route.name ++ " is deprecated." ++
            (match dep.by_name with
             | some b => " Use " ++ b ++ "."
             | none => "")) ++ apos, "DeprecationWarning"]
            "warnings.warn" "" "(" ")" false] ++
          matE ++ [requestEvent fmt ns route] ++ returnEvents route dtf) ++
          [Event.line 0 ""]) := by
  constructor
  · unfold generate at hok
    obtain ⟨rms, -, h⟩ := epBind_ok hok
    injection h with h
    subst h
    have hclass : ("class " ++ cn ++ "(object):") ≠ "import warnings" := by
      rw [String.append_assoc]
      exact str_ne_of_take (by decide)
    unfold _generate_imports
    cases hdep : api.any (fun ns => ns.routes.any fun r => r.deprecated.isSome) with
    | true =>
      simp [List.countP_append, List.countP_cons, countP_line0_ind, hclass]
    | false =>
      simp [List.countP_append, List.countP_cons, countP_line0_ind, hclass]
  · intro ns route dtf evs' dep hdep hr
    obtain ⟨decl, ov, docE, matE, -, hov, hdoc, hmat, hevs⟩ := helper_ok_decomp hr
    refine ⟨decl, ov, docE, matE, hov, hdoc, hmat, ?_⟩
    rw [hevs]
    simp only [_maybe_generate_deprecation_warning, hdep]

end Stone

namespace Stone

/-- A concrete deprecated route naming a replacement. -/
def rDepW : Route :=
  ⟨"old_route", .void, .void, .void, none, none, some ⟨some "new_route"⟩⟩

/-- A concrete namespace holding `rDepW`. -/
def nsDepW : Namespace := ⟨"ops", [], [rDepW]⟩

/-- The module concretely generated from `nsDepW`. -/
def c5evsW : List Event := (generate fmtId "Base" [nsDepW]).toOption.getD []

/-- C5 witness: the module generated from a schema with one deprecated
route carries the deprecation import exactly once. -/
theorem c5_witness :
    c5evsW.countP (fun e => decide (e = Event.line 0 "import warnings")) =
      (if [nsDepW].any (fun ns => ns.routes.any fun r => r.deprecated.isSome)
       then 1 else 0) :=
  (c5_deprecation fmtId "Base" [nsDepW] c5evsW rfl).1

end Stone

namespace Stone

/-- The file-save statement of the file variant. -/
def saveLine : String := "self._save_body_to_file(download_path, r[1])"

/-- A concrete download-style route with a non-Void result. -/
def rDlW : Route :=
  ⟨"dl", .void, .other false, .void, some "download", none, none⟩

/-- A concrete namespace holding `rDlW`. -/
def nsDlW : Namespace := ⟨"files", [], [rDlW]⟩

/-- The concretely generated plain variant of `rDlW`. -/
def c3plainW : List Event :=
  (_generate_route_helper fmtId nsDlW rDlW false).toOption.getD []

/-- The concretely generated file variant of `rDlW`. -/
def c3fileW : List Event :=
  (_generate_route_helper fmtId nsDlW rDlW true).toOption.getD []

/-- C3 counterexample: for a download route with non-Void result, the two
emitted variants differ beyond the name suffix, the destination-path
parameter and the file-save call — the plain variant returns the whole
request result (`return r`) while the file variant returns its decoded
component (`return r[0]`), so the variants are not otherwise identical. -/
theorem c3_counterexample :
    _generate_route_helper fmtId nsDlW rDlW false = .ok c3plainW ∧
    _generate_route_helper fmtId nsDlW rDlW true = .ok c3fileW ∧
    Event.line 1 "return r" ∈ c3plainW ∧
    Event.line 1 "return r" ∉ c3fileW ∧
    Event.line 1 "return r[0]" ∈ c3fileW ∧
    Event.line 1 "return r[0]" ∉ c3plainW :=
  ⟨rfl, rfl, by decide, by decide, by decide, by decide⟩

/-- An event bumped into an indentation scope is a depth-one line exactly
when it was that line at depth zero. -/
theorem bump_eq_line1 {e : Event} {s : String} :
    bump e = Event.line 1 s ↔ e = Event.line 0 s := by
  cases e <;> simp [bump]

/-- Everything a successful `mapEFlat` run emits comes from one of its
inputs. -/
theorem mapEFlat_ok_mem {α β : Type} {g : α → Except GenError (List β)} :
    ∀ {l : List α} {bs : List β}, mapEFlat g l = .ok bs →
      ∀ b ∈ bs, ∃ a ∈ l, ∃ cs, g a = .ok cs ∧ b ∈ cs := by
  intro l
  induction l with
  | nil =>
    intro bs h b hb
    simp only [mapEFlat] at h
    injection h with h
    subst h
    exact absurd hb (List.not_mem_nil b)
  | cons a as ih =>
    intro bs h b hb
    simp only [mapEFlat] at h
    obtain ⟨cs, hcs, h⟩ := epBind_ok h
    obtain ⟨ds, hds, h⟩ := epBind_ok h
    injection h with h
    subst h
    rcases List.mem_append.mp hb with hx | hx
    · exact ⟨a, List.mem_cons_self a as, cs, hcs, hx⟩
    · obtain ⟨a', ha', cs', hcs', hb'⟩ := ih hds b hx
      exact ⟨a', List.mem_cons_of_mem a ha', cs', hcs', hb'⟩

/-- Strings the docstring emits with the `:type ` lead-in never spell the
file-save statement. -/
theorem type_prefix_ne_save (x : String) : ":type " ++ x ≠ saveLine :=
  str_ne_of_take (by decide)

/-- The docstring entries for one struct field never contain the
file-save statement. -/
theorem docStructFieldEvents_no_save {fmt : Fmt} {nsName : String}
    {f : Field} {es : List Event}
    (h : docStructFieldEvents fmt nsName f = .ok es) :
    Event.line 0 saveLine ∉ es := by
  unfold docStructFieldEvents at h
  intro hmem
  cases hdoc : f.doc with
  | some d =>
    rw [hdoc] at h
    obtain ⟨pd, -, h⟩ := epBind_ok h
    injection h with h
    subst h
    rcases List.mem_append.mp hmem with hx | hx
    · rcases List.mem_singleton.mp hx with hx
      exact Event.noConfusion hx
    · by_cases hud : f.data_type.is_user_defined = true
      · rw [if_pos hud] at hx
        rcases List.mem_singleton.mp hx with hx
        injection hx with _ hx
        exact type_prefix_ne_save
          (f.name ++ (": " ++ _format_type_in_doc_f fmt nsName f.data_type))
          (by
            rw [← String.append_assoc, ← String.append_assoc]
            exact hx.symm)
      · rw [if_neg hud] at hx
        exact absurd hx (List.not_mem_nil _)
  | none =>
    rw [hdoc] at h
    injection h with h
    subst h
    rcases List.mem_singleton.mp hmem with hx
    exact Event.noConfusion hx

end Stone

namespace Stone

/-- Strings with the `:rtype: ` lead-in never spell the file-save
statement. -/
theorem rtype_prefix_ne_save (x : String) : ":rtype: " ++ x ≠ saveLine :=
  str_ne_of_take (by decide)

/-- Strings with the `:type arg: ` lead-in never spell the file-save
statement. -/
theorem typearg_prefix_ne_save (x : String) : ":type arg: " ++ x ≠ saveLine :=
  str_ne_of_take (by decide)

/-- A bumped event is never a depth-zero line. -/
theorem bump_ne_line0 (e : Event) (s : String) : bump e ≠ Event.line 0 s := by
  cases e <;> simp [bump]

/-- A depth-zero line never sits inside an indentation scope. -/
theorem not_line0_mem_ind (l : List Event) (s : String) :
    Event.line 0 s ∉ ind l := by
  intro h
  rcases List.mem_map.mp h with ⟨e, -, he⟩
  exact bump_ne_line0 e s he

/-- Membership in a conditional block needs membership in its body. -/
theorem not_mem_ite_nil {c : Prop} [Decidable c] {l : List Event} {e : Event}
    (h : e ∉ l) : e ∉ (if c then l else []) := by
  split
  · exact h
  · exact List.not_mem_nil e

/-- The extra-request-argument notes never contain the file-save
statement. -/
theorem no_save_extra_args (l : List (String × Option String × String)) :
    Event.line 0 saveLine ∉ docExtraArgEvents l := by
  intro h
  unfold docExtraArgEvents at h
  rcases List.mem_map.mp h with ⟨⟨n, dtn, d⟩, -, hx⟩
  have hx' : (if strTruthy dtn then
      Event.wrapped 0 (":param " ++ dtn.getD "" ++ " " ++ n ++ ": " ++ d) "    "
    else Event.wrapped 0 (":param " ++ n ++ ": " ++ d) "    ") =
      Event.line 0 saveLine := hx
  revert hx'
  split <;> (intro hx'; exact Event.noConfusion hx')

/-- A single wrapped paragraph never is the file-save line. -/
theorem no_save_wrapped_singleton (d : Nat) (s p : String) :
    Event.line 0 saveLine ∉ [Event.wrapped d s p] := by
  intro h
  rcases List.mem_singleton.mp h with h
  exact Event.noConfusion h

/-- The docstring footer events never contain the file-save statement. -/
theorem no_save_footE (x : String) :
    Event.line 0 saveLine ∉ [Event.line 0 "", Event.wrapped 0 x ""] := by
  intro h
  rcases List.mem_cons.mp h with h | h
  · exact absurd h (by decide)
  · rcases List.mem_singleton.mp h with h
    exact Event.noConfusion h

/-- The error section of the docstring never contains the file-save
statement. -/
theorem no_save_errE (x : String) :
    Event.line 0 saveLine ∉
      ([Event.line 0 ":raises: :class:`dropbox.exceptions.ApiError`",
        Event.line 0 "",
        Event.line 0 "If this raises, ApiError.reason is of type:"] ++
       ind [Event.line 0 x]) := by
  intro h
  rcases List.mem_append.mp h with h | h
  · exact absurd h (by decide)
  · exact not_line0_mem_ind _ _ h

/-- The request-argument materialization never contains the file-save
statement. -/
theorem materialize_no_save {fmt : Fmt} {adt : ArgDT} {matE : List Event}
    (h : materialize_request_arg fmt adt = .ok matE) :
    Event.line 0 saveLine ∉ matE := by
  cases adt with
  | void =>
    injection h with h
    subst h
    decide
  | struct a b c d =>
    injection h with h
    subst h
    intro hm
    rcases List.mem_singleton.mp hm with hm
    exact Event.noConfusion hm
  | union a b c =>
    injection h with h
    subst h
    exact List.not_mem_nil _
  | other b => exact Except.noConfusion h

/-- A successful docstring block never contains the file-save statement. -/
theorem docstring_no_save {fmt : Fmt} {nsName : String}
    {adt rdt edt : ArgDT} {overview : Option String}
    {era : Option (List (String × Option String × String))}
    {extra_ret footer : Option String} {docE : List Event}
    (h : _generate_docstring_for_func fmt nsName adt rdt edt overview era
      extra_ret footer = .ok docE) :
    Event.line 0 saveLine ∉ docE := by
  unfold _generate_docstring_for_func at h
  obtain ⟨fields, -, hreg⟩ := epBind_ok h
  unfold _generate_docstring_for_func.regularfields at hreg
  split at hreg
  · injection hreg with hreg
    subst hreg
    exact List.not_mem_nil _
  · obtain ⟨pe, hpe, hreg⟩ := epBind_ok hreg
    obtain ⟨efs, -, hreg⟩ := epBind_ok hreg
    injection hreg with hreg
    subst hreg
    intro hmem
    rcases List.mem_append.mp hmem with h1 | h1
    rotate_left
    · exact absurd h1 (by decide)
    rcases List.mem_append.mp h1 with h2 | h2
    · exact absurd h2 (by decide)
    rcases List.mem_append.mp h2 with h3 | h3
    rotate_left
    · exact absurd h3 (not_mem_ite_nil (no_save_footE _))
    rcases List.mem_append.mp h3 with h4 | h4
    rotate_left
    · exact absurd h4 (not_mem_ite_nil (no_save_errE _))
    rcases List.mem_append.mp h4 with h5 | h5
    rotate_left
    · revert h5
      split
      · intro h5
        rcases List.mem_singleton.mp h5 with h5
        exact Event.noConfusion h5
      split
      · intro h5
        exact absurd h5 (by decide)
      · intro h5
        rcases List.mem_singleton.mp h5 with h5
        injection h5 with _ h5
        exact rtype_prefix_ne_save _ h5.symm
    rcases List.mem_append.mp h5 with h6 | h6
    rotate_left
    · revert h6
      apply not_mem_ite_nil
      decide
    rcases List.mem_append.mp h6 with h7 | h7
    · revert h7
      apply not_mem_ite_nil
      exact no_save_wrapped_singleton _ _ _
    · -- h7 : membership in the parameter section pe
      revert h7
      clear hmem h1 h2 h3 h4 h5 h6 h hreg
      revert hpe
      split
      · cases adt with
        | struct a b c d =>
          intro hpe
          obtain ⟨fe, hfe, hpe⟩ := epBind_ok hpe
          injection hpe with hpe
          subst hpe
          intro h7
          rcases List.mem_append.mp h7 with h8 | h8
          rcases List.mem_append.mp h8 with h9 | h9
          · exact absurd h9 (not_mem_ite_nil (by decide))
          · exact absurd h9 (not_mem_ite_nil (no_save_extra_args _))
          · obtain ⟨f', -, cs, hcs, hmem'⟩ := mapEFlat_ok_mem hfe _ h8
            exact absurd hmem' (docStructFieldEvents_no_save hcs)
        | union nm udoc ufs =>
          cases udoc with
          | some d =>
            intro hpe
            obtain ⟨pd, -, hpe⟩ := epBind_ok hpe
            injection hpe with hpe
            subst hpe
            intro h7
            rcases List.mem_append.mp h7 with h8 | h8
            rcases List.mem_append.mp h8 with h9 | h9
            · exact absurd h9 (not_mem_ite_nil (by decide))
            · exact absurd h9 (not_mem_ite_nil (no_save_extra_args _))
            · rcases List.mem_cons.mp h8 with h9 | h9
              · exact Event.noConfusion h9
              rcases List.mem_singleton.mp h9 with h9
              injection h9 with _ h9
              exact typearg_prefix_ne_save _ h9.symm
          | none =>
            intro hpe
            injection hpe with hpe
            subst hpe
            intro h7
            rcases List.mem_append.mp h7 with h8 | h8
            rcases List.mem_append.mp h8 with h9 | h9
            · exact absurd h9 (not_mem_ite_nil (by decide))
            · exact absurd h9 (not_mem_ite_nil (no_save_extra_args _))
            · rcases List.mem_singleton.mp h8 with h9
              injection h9 with _ h9
              exact typearg_prefix_ne_save _ h9.symm
        | void =>
          intro hpe
          injection hpe with hpe
          subst hpe
          intro h7
          rcases List.mem_append.mp h7 with h9 | h9
          · exact absurd h9 (not_mem_ite_nil (by decide))
          · exact absurd h9 (not_mem_ite_nil (no_save_extra_args _))
        | other b =>
          intro hpe
          injection hpe with hpe
          subst hpe
          intro h7
          rcases List.mem_append.mp h7 with h9 | h9
          · exact absurd h9 (not_mem_ite_nil (by decide))
          · exact absurd h9 (not_mem_ite_nil (no_save_extra_args _))
      · intro hpe
        injection hpe with hpe
        subst hpe
        exact List.not_mem_nil _

end Stone

namespace Stone

/-- The deprecation warning is never the file-save statement. -/
theorem no_save_warn (route : Route) :
    Event.line 0 saveLine ∉ _maybe_generate_deprecation_warning route := by
  unfold _maybe_generate_deprecation_warning
  cases route.deprecated with
  | none => exact List.not_mem_nil _
  | some dep =>
    intro h
    rcases List.mem_singleton.mp h with h
    exact Event.noConfusion h

/-- The plain variant's return statements never include the file-save
statement. -/
theorem no_save_return_false (route : Route) :
    Event.line 0 saveLine ∉ returnEvents route false := by
  unfold returnEvents
  intro h
  simp only [Bool.false_eq_true, if_false] at h
  rcases List.mem_singleton.mp h with h
  revert h
  split <;> (intro h; exact absurd h (by decide))

/-- C3 (amended): a download-style route emits exactly the two variants
(the plain helper output followed by the file helper output); the file
variant's prototype carries the `_to_file` suffix and an extra leading
`download_path` parameter, and its body contains the file-save call,
which the plain variant's never does; any other style emits exactly the
one plain variant.  (The two variants also differ in their docstrings and
in the returned expression; see the counterexample.) -/
theorem c3_download_variants (fmt : Fmt) (ns : Namespace) (route : Route) :
    (route.style = some "download" →
      ∀ evs, _generate_route fmt ns route = .ok evs →
      ∃ a b, _generate_route_helper fmt ns route false = .ok a ∧
        _generate_route_helper fmt ns route true = .ok b ∧
        evs = a ++ b ∧
        (∃ tl, b.head? = some (Event.mlist 0 (["self", "download_path"] ++ tl)
          ("def " ++ fmt.fmt_func ns.name ++ "_" ++
            (fmt.fmt_func route.name ++ "_to_file")) ":" "(" ")" true)) ∧
        Event.line 1 saveLine ∈ b ∧
        Event.line 1 saveLine ∉ a) ∧
    (route.style ≠ some "download" →
      _generate_route fmt ns route = _generate_route_helper fmt ns route false) := by
  constructor
  · intro hstyle evs hok
    have hrbb : request_binary_body route = false := by
      simp [request_binary_body, hstyle]
    unfold _generate_route at hok
    obtain ⟨a, ha, hok⟩ := epBind_ok hok
    rw [if_pos hstyle] at hok
    obtain ⟨b, hb, hok⟩ := epBind_ok hok
    injection hok with hok
    obtain ⟨decl, ov, docE, matE, hdecl, -, -, -, hbevs⟩ := helper_ok_decomp hb
    have hdeclok : _generate_route_method_decl fmt ns.name route
        route.arg_data_type (request_binary_body route) (some "_to_file")
        (some ["download_path"]) = .ok decl := by
      simpa using hdecl.2
    obtain ⟨decl2, ov2, docE2, matE2, hdecl2, -, hdoc2, hmat2, haevs⟩ :=
      helper_ok_decomp ha
    have hdeclok2 : _generate_route_method_decl fmt ns.name route
        route.arg_data_type (request_binary_body route) none none =
        .ok decl2 := by
      simpa using hdecl2
    refine ⟨a, b, ha, hb, hok.symm, ?_, ?_, ?_⟩
    · obtain ⟨tl, htl⟩ := decl_ok_shape hdeclok
      rw [hbevs, htl, hrbb]
      exact ⟨tl, by simp⟩
    · rw [hbevs]
      refine List.mem_append.mpr (Or.inl (List.mem_append.mpr (Or.inr ?_)))
      refine List.mem_map.mpr ⟨Event.line 0 saveLine, ?_, rfl⟩
      simp [returnEvents, saveLine]
    · rw [haevs]
      intro hmem
      rcases List.mem_append.mp hmem with h1 | h1
      · rcases List.mem_append.mp h1 with h2 | h2
        · rcases List.mem_singleton.mp h2 with h2
          obtain ⟨tl2, htl2⟩ := decl_ok_shape hdeclok2
          rw [htl2] at h2
          exact Event.noConfusion h2
        · rcases List.mem_map.mp h2 with ⟨e, hin, hbump⟩
          rw [bump_eq_line1] at hbump
          subst hbump
          rcases List.mem_append.mp hin with h3 | h3
          rotate_left
          · exact absurd h3 (no_save_return_false route)
          rcases List.mem_append.mp h3 with h4 | h4
          rotate_left
          · rcases List.mem_singleton.mp h4 with h4
            exact Event.noConfusion h4
          rcases List.mem_append.mp h4 with h5 | h5
          rotate_left
          · exact absurd h5 (materialize_no_save hmat2)
          rcases List.mem_append.mp h5 with h6 | h6
          · exact absurd h6 (docstring_no_save hdoc2)
          · exact absurd h6 (no_save_warn route)
      · exact absurd h1 (by decide)
  · intro hstyle
    unfold _generate_route
    cases hh : _generate_route_helper fmt ns route false with
    | error e => rfl
    | ok a => simp only [epBind_ok_arg, if_neg hstyle]

end Stone

namespace Stone

/-- The concretely generated method pair of `rDlW`. -/
def c3routeW : List Event :=
  (_generate_route fmtId nsDlW rDlW).toOption.getD []

/-- C3 witness: both variants of a concrete download route, with the file
variant's suffix, leading destination parameter and file-save call. -/
theorem c3_witness :
    ∃ a b, _generate_route_helper fmtId nsDlW rDlW false = .ok a ∧
      _generate_route_helper fmtId nsDlW rDlW true = .ok b ∧
      c3routeW = a ++ b ∧
      (∃ tl, b.head? = some (Event.mlist 0 (["self", "download_path"] ++ tl)
        ("def " ++ fmtId.fmt_func nsDlW.name ++ "_" ++
          (fmtId.fmt_func rDlW.name ++ "_to_file")) ":" "(" ")" true)) ∧
      Event.line 1 saveLine ∈ b ∧
      Event.line 1 saveLine ∉ a :=
  (c3_download_variants fmtId nsDlW rDlW).1 rfl c3routeW rfl

/-- A concrete plain required field named `x`. -/
def fXW : Field := ⟨"x", ⟨false, false, false, "", "String"⟩, none, false, .obj "u"⟩

/-- A concrete upload-style route whose Struct argument has one field. -/
def rUpW : Route :=
  ⟨"up", .struct "ns1" "UpArg" [fXW] [fXW], .other false, .void,
   some "upload", none, none⟩

/-- A concrete namespace holding `rUpW`. -/
def nsUpW : Namespace := ⟨"ns1", [], [rUpW]⟩

/-- C4 counterexample: for an upload route whose Struct argument has a
field, the binary-body parameter `f` is present but not trailing — the
parameter list ends with the field parameter `x`, not with `f`. -/
theorem c4_counterexample :
    _generate_route_method_decl fmtId "ns1" rUpW rUpW.arg_data_type
      (request_binary_body rUpW) none none =
      .ok (Event.mlist 0 ["self", "f", "x"] "def ns1_up" ":" "(" ")" true) ∧
    ["self", "f", "x"].getLast? = some "x" ∧
    "f" ∈ ["self", "f", "x"] ∧
    "x" ≠ "f" :=
  ⟨rfl, rfl, by decide, by decide⟩

/-- C4 (amended): an upload-style route emits exactly one variant; its
prototype places the binary-body parameter `f` immediately after the
receiver (before any argument-derived parameters), and its request
statement passes `f` as the fourth (binary-body) argument; for a route of
any other style the request statement passes `None` there. -/
theorem c4_upload_binary_body (fmt : Fmt) (ns : Namespace) (route : Route)
    (hstyle : route.style = some "upload") :
    _generate_route fmt ns route = _generate_route_helper fmt ns route false ∧
    (∀ evs, _generate_route_helper fmt ns route false = .ok evs →
      ∃ decl tl rest, evs = decl :: rest ∧
        decl = Event.mlist 0 (["self", "f"] ++ tl)
          ("def " ++ fmt.fmt_func ns.name ++ "_" ++ fmt.fmt_func route.name)
          ":" "(" ")" true ∧
        requestEvent fmt ns route = Event.mlist 0
          [ns.name ++ "." ++ fmt.fmt_var route.name, apos ++ ns.name ++ apos,
           "arg", "f"] "r = self.request" "" "(" ")" false ∧
        Event.mlist 1 [ns.name ++ "." ++ fmt.fmt_var route.name,
          apos ++ ns.name ++ apos, "arg", "f"]
          "r = self.request" "" "(" ")" false ∈ rest) ∧
    (∀ (route2 : Route) (ns2 : Namespace), route2.style ≠ some "upload" →
      requestEvent fmt ns2 route2 = Event.mlist 0
        [ns2.name ++ "." ++ fmt.fmt_var route2.name, apos ++ ns2.name ++ apos,
         "arg", "None"] "r = self.request" "" "(" ")" false) := by
  have hrbb : request_binary_body route = true := by
    simp [request_binary_body, hstyle]
  have hnd : ¬route.style = some "download" := by
    rw [hstyle]
    decide
  refine ⟨?_, ?_, ?_⟩
  · unfold _generate_route
    cases hh : _generate_route_helper fmt ns route false with
    | error e => rfl
    | ok a => simp only [epBind_ok_arg, if_neg hnd]
  · intro evs hok
    obtain ⟨decl, ov, docE, matE, hdecl, -, -, -, hevs⟩ := helper_ok_decomp hok
    have hdeclok : _generate_route_method_decl fmt ns.name route
        route.arg_data_type (request_binary_body route) none none =
        .ok decl := by
      simpa using hdecl
    obtain ⟨tl, htl⟩ := decl_ok_shape hdeclok
    have hreq : requestEvent fmt ns route = Event.mlist 0
        [ns.name ++ "." ++ fmt.fmt_var route.name, apos ++ ns.name ++ apos,
         "arg", "f"] "r = self.request" "" "(" ")" false := by
      simp [requestEvent, hrbb]
    refine ⟨decl, tl,
      ind (docE ++ _maybe_generate_deprecation_warning route ++ matE ++
        [requestEvent fmt ns route] ++ returnEvents route false) ++
        [Event.line 0 ""], ?_, ?_, hreq, ?_⟩
    · rw [hevs]
      simp
    · rw [htl, hrbb]
      simp
    · refine List.mem_append.mpr (Or.inl ?_)
      refine List.mem_map.mpr ⟨requestEvent fmt ns route, ?_, ?_⟩
      · simp
      · rw [hreq]
        rfl
  · intro route2 ns2 h
    simp [requestEvent, request_binary_body, h]

/-- The concretely generated method of `rUpW`. -/
def c4evsW : List Event :=
  (_generate_route_helper fmtId nsUpW rUpW false).toOption.getD []

/-- C4 witness: the single upload variant at a concrete route, with `f`
right after the receiver and passed as the request's fourth argument. -/
theorem c4_witness :
    _generate_route fmtId nsUpW rUpW =
      _generate_route_helper fmtId nsUpW rUpW false ∧
    (∃ decl tl rest, c4evsW = decl :: rest ∧
      decl = Event.mlist 0 (["self", "f"] ++ tl)
        ("def " ++ fmtId.fmt_func nsUpW.name ++ "_" ++ fmtId.fmt_func rUpW.name)
        ":" "(" ")" true ∧
      requestEvent fmtId nsUpW rUpW = Event.mlist 0
        [nsUpW.name ++ "." ++ fmtId.fmt_var rUpW.name,
         apos ++ nsUpW.name ++ apos, "arg", "f"]
        "r = self.request" "" "(" ")" false ∧
      Event.mlist 1 [nsUpW.name ++ "." ++ fmtId.fmt_var rUpW.name,
        apos ++ nsUpW.name ++ apos, "arg", "f"]
        "r = self.request" "" "(" ")" false ∈ rest) :=
  ⟨(c4_upload_binary_body fmtId nsUpW rUpW rfl).1,
   (c4_upload_binary_body fmtId nsUpW rUpW rfl).2.1 c4evsW rfl⟩

end Stone
